import Mathlib

/-!
Shallow embedding of `scrape_the_web_agentically.py`: a LangGraph-based
web-scraping agent.  The state schema (`OverallState`), the node functions
(`initialize_state`, `scrape_manager`, `send_to_scraper`, `scraper`,
`evaluate`), the routing function (`should_continue_scraping`), the per-field
reducers (`first_non_null`, `or_`) and the executor loop wired by
`create_graph` are translated here as executable Lean definitions.

External effects are abstracted at their interfaces: the ScrapeGraphAI call
(`SmartScraperGraph(...).run()`) is an oracle value of type
`ExtractorOutcome` (a dict result, a non-dict result, or a raised
exception), and the API key from the run config is an explicit `String`
argument.  Python dict values occurring in this program are strings, so a
dict is modelled as an association list `List (String, String)`; the
stringification model (`pyReprString`, `pyStrDictValues`) covers strings
that need no escape sequences, which suffices for the records handled here.
-/

/-- Python substring containment on character lists: `needle in hay`. -/
def listContainsSub : List Char → List Char → Bool
  | needle, [] => needle.isEmpty
  | needle, c :: t => needle.isPrefixOf (c :: t) || listContainsSub needle t

/-- Python string containment `needle in hay`. -/
def pyIn (needle hay : String) : Bool :=
  listContainsSub needle.data hay.data

/-- Python `str.lower()`: character-wise ASCII lower-casing. -/
def strLower (s : String) : String :=
  ⟨s.data.map Char.toLower⟩

/-- Model of Python `repr` for a string that needs no escape sequences:
single quotes, unless the string holds a single quote and no double quote. -/
def pyReprString (s : String) : String :=
  if s.data.contains (Char.ofNat 39) && !s.data.contains (Char.ofNat 34) then
    "\x22" ++ s ++ "\x22"
  else
    "\x27" ++ s ++ "\x27"

/-- Model of Python `str(d.values())` for a dict with string values:
`dict_values([...])` listing the repr of each value, comma-separated. -/
def pyStrDictValues (d : List (String × String)) : String :=
  "dict_values([" ++ String.intercalate ", " (d.map (fun kv => pyReprString kv.2)) ++ "])"

/-- Model of Python `str(d)` for a dict with string keys and values: the
braced, comma-separated list of `repr(key): repr(value)` entries. -/
def pyStrDict (d : List (String × String)) : String :=
  "\x7b" ++
    String.intercalate ", "
      (d.map (fun kv => pyReprString kv.1 ++ ": " ++ pyReprString kv.2)) ++
    "\x7d"

/-- Source `first_non_null(a, b)`: `a if a is not None else b`.  It is the
registered reducer for `extracted_info` and `extracted_from_url`. -/
def first_non_null {α : Type} (a b : Option α) : Option α :=
  if a.isSome then a else b

/-- Source reducer for `is_information_found`: `operator.or_`, i.e. `a | b`,
which on the booleans this program writes is logical OR. -/
def or_ (a b : Bool) : Bool := a || b

/-- Source `OverallState` schema.  `extracted_info` values in this program
are dicts with string values; `is_information_found` is declared
`Optional[bool]` in the schema but every writer (starting with
`initialize_state`, which runs first) stores a concrete bool, so it is
modelled as `Bool`. -/
structure OverallState where
  initial_urls : List String
  current_url_index : Nat
  total_urls : Nat
  urls_to_scrape : List String
  extracted_info : Option (List (String × String))
  extracted_from_url : Option String
  is_information_found : Bool
  keyword : String
deriving DecidableEq, Repr

/-- A state update: the dict a node returns.  `none` in an outer `Option`
means the key is absent from the returned dict; for `extracted_info` and
`extracted_from_url` the written value is itself optional (a node may write
Python `None`). -/
structure StateUpdate where
  initial_urls : Option (List String) := none
  current_url_index : Option Nat := none
  total_urls : Option Nat := none
  urls_to_scrape : Option (List String) := none
  extracted_info : Option (Option (List (String × String))) := none
  extracted_from_url : Option (Option String) := none
  is_information_found : Option Bool := none
  keyword : Option String := none
deriving DecidableEq, Repr

/-- LangGraph merge of the dict a node returned into the current state: a key
that is absent leaves its field unchanged; `extracted_info` and
`extracted_from_url` merge through the `first_non_null` reducer,
`is_information_found` through `or_`, and the remaining fields are
overwritten. -/
def applyUpdate (s : OverallState) (p : StateUpdate) : OverallState :=
  { initial_urls := p.initial_urls.getD s.initial_urls
    current_url_index := p.current_url_index.getD s.current_url_index
    total_urls := p.total_urls.getD s.total_urls
    urls_to_scrape := p.urls_to_scrape.getD s.urls_to_scrape
    extracted_info :=
      match p.extracted_info with
      | none => s.extracted_info
      | some v => first_non_null s.extracted_info v
    extracted_from_url :=
      match p.extracted_from_url with
      | none => s.extracted_from_url
      | some v => first_non_null s.extracted_from_url v
    is_information_found :=
      match p.is_information_found with
      | none => s.is_information_found
      | some b => or_ s.is_information_found b
    keyword := p.keyword.getD s.keyword }

/-- View a full state as the update writing every key, the shape
`scrape_manager` returns. -/
def toUpdate (s : OverallState) : StateUpdate :=
  { initial_urls := some s.initial_urls
    current_url_index := some s.current_url_index
    total_urls := some s.total_urls
    urls_to_scrape := some s.urls_to_scrape
    extracted_info := some s.extracted_info
    extracted_from_url := some s.extracted_from_url
    is_information_found := some s.is_information_found
    keyword := some s.keyword }

/-- Raw run input: `state.get("urls", [])` may hold a bare string or a list,
`state.get("keyword", "")` a string; either key may be absent. -/
inductive UrlsVal where
  | str (s : String)
  | list (l : List String)
deriving DecidableEq, Repr

structure RawInput where
  urls : Option UrlsVal
  keyword : Option String
deriving DecidableEq, Repr

/-- Python falsiness of the `urls` value: empty string or empty list. -/
def urlsFalsy : UrlsVal → Bool
  | .str s => s.isEmpty
  | .list l => l.isEmpty

/-- Source node `initialize_state`: substitutes the built-in defaults for an
absent/empty `urls` or `keyword`, promotes a bare string to a one-element
list, and populates the full initial state. -/
def initialize_state (input : RawInput) : OverallState :=
  let urls0 := input.urls.getD (UrlsVal.list [])
  let keyword0 := input.keyword.getD ""
  let urls :=
    if urlsFalsy urls0 then UrlsVal.list ["https://python.langchain.com"] else urls0
  let keyword :=
    if keyword0.isEmpty then "How to track token usage for LLMs" else keyword0
  let initial_urls :=
    match urls with
    | .str s => [s]
    | .list l => l
  { initial_urls := initial_urls
    current_url_index := 0
    total_urls := initial_urls.length
    urls_to_scrape := initial_urls
    extracted_info := none
    extracted_from_url := none
    is_information_found := false
    keyword := keyword }

/-- Source node `scrape_manager`: both branches return the incoming state
unchanged (the non-empty branch computes remaining/processed/progress
figures used only in a log line). -/
def scrape_manager (state : OverallState) : OverallState :=
  let urls_to_scrape := state.urls_to_scrape
  if urls_to_scrape.isEmpty then state else state

/-- A LangGraph `Send(target, seed)` task produced by the fan-out planner;
the seed dict here is always of the shape `\x7burl, keyword\x7d`. -/
structure SendTask where
  target : String
  url : String
  keyword : String
deriving DecidableEq, Repr

/-- Source fan-out planner `send_to_scraper`: empty list on an empty queue,
otherwise one `Send("scraper", \x7burl, keyword\x7d)` per queued URL. -/
def send_to_scraper (state : OverallState) : List SendTask :=
  let urls_to_scrape := state.urls_to_scrape
  if urls_to_scrape.isEmpty then []
  else urls_to_scrape.map (fun url => ⟨"scraper", url, state.keyword⟩)

/-- Outcome of the external `SmartScraperGraph(...).run()` call: a dict
result, a non-dict result (kept as its stringification), or a raised
exception (kept as its message `str(e)`). -/
inductive ExtractorOutcome where
  | dict (result : List (String × String))
  | nonDict (s : String)
  | raised (msg : String)
deriving DecidableEq, Repr

/-- Source node `scraper`: pops the head URL, runs the extractor, performs
the relevance check on `str(result.values()).lower()`, catches any raised
error into an `error` payload, and returns a state update.  When the API
key is empty it returns early with only three keys (no `urls_to_scrape`).
The outcome of the extractor call is the oracle argument `run_outcome`. -/
def scraper (state : OverallState) (api_key : String)
    (run_outcome : ExtractorOutcome) : StateUpdate :=
  match state.urls_to_scrape with
  | [] =>
    { extracted_info := some none
      extracted_from_url := some none
      is_information_found := some false
      urls_to_scrape := some [] }
  | url :: remaining_urls =>
    let keyword := state.keyword
    if api_key.isEmpty then
      { extracted_info := some none
        extracted_from_url := some (some url)
        is_information_found := some false }
    else
      let out : List (String × String) × Bool :=
        match run_outcome with
        | .dict result =>
          let summary := strLower (pyStrDictValues result)
          if pyIn (strLower keyword) summary
              && !pyIn "not mentioned" summary
              && !pyIn "not relevant" summary then
            (result, true)
          else
            (result, false)
        | .nonDict s => ([("raw_output", s)], false)
        | .raised msg => ([("error", msg)], false)
      { extracted_info := some (some out.1)
        extracted_from_url := some (some url)
        is_information_found := some out.2
        urls_to_scrape := some remaining_urls }

/-- Source node `evaluate`: re-asserts the truthiness of
`is_information_found` as a one-key state update. -/
def evaluate (state : OverallState) : StateUpdate :=
  if state.is_information_found then
    { is_information_found := some true }
  else
    { is_information_found := some false }

/-- Source routing function `should_continue_scraping`. -/
def should_continue_scraping (state : OverallState) : String :=
  if state.is_information_found then "end_process"
  else if state.current_url_index < state.total_urls then "continue_scraping"
  else "end_process"

/-- Node names of the compiled graph of `create_graph`, after
`initialize_state` (which runs exactly once from START), plus the END
marker. -/
inductive GNode where
  | scrapeManager
  | scraperNode
  | evaluateNode
  | endMarker
deriving DecidableEq, Repr

structure ExecState where
  node : GNode
  state : OverallState
deriving DecidableEq, Repr

/-- One executor step of the graph wired in `create_graph`: run the current
node, merge the dict it returned into the state, then follow the outgoing
(conditional) edge of that node on the merged state.  The extractor oracle
`ext` gives the outcome of `SmartScraperGraph(...).run()` for a URL;
`api_key` is the configured OpenAI key. -/
def step (api_key : String) (ext : String → ExtractorOutcome)
    (e : ExecState) : ExecState :=
  match e.node with
  | .scrapeManager =>
    let s := applyUpdate e.state (toUpdate (scrape_manager e.state))
    ⟨if s.urls_to_scrape.isEmpty then .evaluateNode else .scraperNode, s⟩
  | .scraperNode =>
    let out := scraper e.state api_key (ext (e.state.urls_to_scrape.headD ""))
    ⟨.evaluateNode, applyUpdate e.state out⟩
  | .evaluateNode =>
    let s := applyUpdate e.state (evaluate e.state)
    ⟨if should_continue_scraping s = "continue_scraping" then .scrapeManager
      else .endMarker, s⟩
  | .endMarker => e

/-- Iterated executor from a given configuration. -/
def runFrom (api_key : String) (ext : String → ExtractorOutcome)
    (e : ExecState) : Nat → ExecState
  | 0 => e
  | n + 1 => step api_key ext (runFrom api_key ext e n)

/-- A concrete exhaustion run: one URL, a set API key, and an extractor
whose result never matches the keyword, so every scraper task reports
`is_information_found = false`. -/
def exhaustExt : String → ExtractorOutcome :=
  fun _ => .dict [("content", "nothing of interest")]

def exhaustStart : ExecState :=
  ⟨.scrapeManager,
    initialize_state ⟨some (.list ["https://a.example"]), some "quantum"⟩⟩

def exhaustRun (n : Nat) : ExecState :=
  runFrom "sk-test" exhaustExt exhaustStart n

/-- The relevance predicate as claim C5 words it: containment tested on the
lower-cased stringification of the record itself (Python `str(record)`,
keys included). -/
def claimRelevant (keyword : String) (record : List (String × String)) : Bool :=
  let s := strLower (pyStrDict record)
  pyIn (strLower keyword) s && !pyIn "not mentioned" s && !pyIn "not relevant" s

/-- The relevance predicate the source computes: containment tested on the
lower-cased stringification of the values of the record,
`str(result.values()).lower()`. -/
def valuesRelevant (keyword : String) (record : List (String × String)) : Bool :=
  let s := strLower (pyStrDictValues record)
  pyIn (strLower keyword) s && !pyIn "not mentioned" s && !pyIn "not relevant" s

/-- The state the exhaustion run is stuck in once its only URL has been
consumed with a not-found verdict. -/
def exhaustStuck : OverallState :=
  { initial_urls := ["https://a.example"]
    current_url_index := 0
    total_urls := 1
    urls_to_scrape := []
    extracted_info := some [("content", "nothing of interest")]
    extracted_from_url := some "https://a.example"
    is_information_found := false
    keyword := "quantum" }

/-- Every executor configuration the exhaustion run ever visits: the two
start configurations, then the `evaluate` / `scrape_manager` pair it cycles
between forever.  The END marker never appears. -/
def exhaustCycle : List ExecState :=
  [ ⟨.scrapeManager,
      initialize_state ⟨some (.list ["https://a.example"]), some "quantum"⟩⟩,
    ⟨.scraperNode,
      initialize_state ⟨some (.list ["https://a.example"]), some "quantum"⟩⟩,
    ⟨.evaluateNode, exhaustStuck⟩,
    ⟨.scrapeManager, exhaustStuck⟩ ]

/-- Claim C9: `scrape_manager` does not mutate the state — it returns the
state it received, in every field. -/
theorem scrape_manager_frame (s : OverallState) : scrape_manager s = s := by
  unfold scrape_manager
  exact ite_self s

/-- Claim C2: `should_continue_scraping` follows the decision table — found
means `end_process`; not found with `current_url_index < total_urls` means
`continue_scraping`; not found otherwise means `end_process`. -/
theorem should_continue_scraping_table (s : OverallState) :
    (s.is_information_found = true → should_continue_scraping s = "end_process")
  ∧ (s.is_information_found = false → s.current_url_index < s.total_urls →
      should_continue_scraping s = "continue_scraping")
  ∧ (s.is_information_found = false → s.total_urls ≤ s.current_url_index →
      should_continue_scraping s = "end_process") := by
  refine ⟨fun h => ?_, fun h hlt => ?_, fun h hle => ?_⟩
  · simp [should_continue_scraping, h]
  · simp [should_continue_scraping, h, hlt]
  · simp [should_continue_scraping, h, Nat.not_lt.mpr hle]

/-- Concrete instantiation of the routing decision table. -/
theorem should_continue_scraping_table_witness :
    should_continue_scraping
      ⟨["https://a.example"], 0, 1, [], none, none, true, "kw"⟩ = "end_process" :=
  (should_continue_scraping_table _).1 rfl

/-- Claim C4: the fan-out planner returns no task on an empty queue, and
otherwise exactly one `Send` per queued entry, each targeting the scraper
node, seeded with that entry and the keyword of the state. -/
theorem send_to_scraper_tasks (s : OverallState) :
    (s.urls_to_scrape = [] → send_to_scraper s = [])
  ∧ send_to_scraper s =
      s.urls_to_scrape.map (fun url => ⟨"scraper", url, s.keyword⟩) := by
  constructor
  · intro h
    simp [send_to_scraper, h]
  · cases h : s.urls_to_scrape with
    | nil => simp [send_to_scraper, h]
    | cons a t => simp [send_to_scraper, h]

/-- Concrete instantiation of the fan-out planner contract. -/
theorem send_to_scraper_tasks_witness :
    send_to_scraper ⟨[], 0, 0, [], none, none, false, "kw"⟩ = [] :=
  (send_to_scraper_tasks _).1 rfl

/-- Claim C6: on a non-empty URL list and non-empty keyword,
`initialize_state` fills every field as specified. -/
theorem initialize_state_valid (l : List String) (kw : String)
    (hl : l ≠ []) (hk : kw ≠ "") :
    initialize_state ⟨some (.list l), some kw⟩ =
      { initial_urls := l
        current_url_index := 0
        total_urls := l.length
        urls_to_scrape := l
        extracted_info := none
        extracted_from_url := none
        is_information_found := false
        keyword := kw } := by
  have hl' : l.isEmpty = false := by
    cases l with
    | nil => exact absurd rfl hl
    | cons a t => rfl
  have hk' : kw.isEmpty = false := by
    rcases h : kw.isEmpty with _ | _
    · rfl
    · exact absurd ((String.isEmpty_iff kw).mp h) hk
  simp [initialize_state, urlsFalsy, hl', hk']

/-- Concrete instantiation of the initialization contract. -/
theorem initialize_state_valid_witness :
    initialize_state ⟨some (.list ["https://a.example", "https://b.example"]),
        some "foo"⟩ =
      { initial_urls := ["https://a.example", "https://b.example"]
        current_url_index := 0
        total_urls := 2
        urls_to_scrape := ["https://a.example", "https://b.example"]
        extracted_info := none
        extracted_from_url := none
        is_information_found := false
        keyword := "foo" } :=
  initialize_state_valid _ _ (by decide) (by decide)

/-- The empty Python string is falsy. -/
theorem string_empty_isEmpty : ("" : String).isEmpty = true := by decide

/-- Claim C7: `initialize_state` always succeeds with substitution — an
absent or empty `urls` yields the single built-in default URL, an absent or
empty `keyword` yields the built-in default keyword, and a bare non-empty
string for `urls` is promoted to a one-element list. -/
theorem initialize_state_substitution (input : RawInput) :
    ((input.urls = none ∨ input.urls = some (.list []) ∨ input.urls = some (.str "")) →
      (initialize_state input).initial_urls = ["https://python.langchain.com"])
  ∧ ((input.keyword = none ∨ input.keyword = some "") →
      (initialize_state input).keyword = "How to track token usage for LLMs")
  ∧ (∀ s : String, s ≠ "" → input.urls = some (.str s) →
      (initialize_state input).initial_urls = [s]) := by
  refine ⟨fun h => ?_, fun h => ?_, fun s hs h => ?_⟩
  · rcases h with h | h | h <;>
      simp [initialize_state, h, urlsFalsy, string_empty_isEmpty]
  · rcases h with h | h <;> simp [initialize_state, h, string_empty_isEmpty]
  · have hs' : s.isEmpty = false := by
      rcases he : s.isEmpty with _ | _
      · rfl
      · exact absurd ((String.isEmpty_iff s).mp he) hs
    simp [initialize_state, h, urlsFalsy, hs']

/-- Concrete instantiation of the substitution policy: both inputs empty. -/
theorem initialize_state_substitution_witness :
    (initialize_state ⟨some (.list []), some ""⟩).initial_urls =
        ["https://python.langchain.com"]
  ∧ (initialize_state ⟨some (.list []), some ""⟩).keyword =
        "How to track token usage for LLMs" :=
  ⟨(initialize_state_substitution _).1 (Or.inr (Or.inl rfl)),
   (initialize_state_substitution _).2.1 (Or.inr rfl)⟩

/-- Claim C8: the reducer for `is_information_found` is logical OR, so a
state whose flag is true keeps a true flag through the merge of any later
state update. -/
theorem merge_found_monotone (s : OverallState) (p : StateUpdate)
    (h : s.is_information_found = true) :
    (applyUpdate s p).is_information_found = true := by
  cases hp : p.is_information_found <;> simp [applyUpdate, hp, or_, h]

/-- Concrete instantiation of OR-reducer monotonicity: a later writer with
`false` cannot reset the flag. -/
theorem merge_found_monotone_witness :
    (applyUpdate ⟨["https://a.example"], 0, 1, [], none, none, true, "kw"⟩
      { is_information_found := some false }).is_information_found = true :=
  merge_found_monotone _ _ rfl

/-- Claim C3: when the extractor raises, the scraper node returns normally
with the error message recorded as the `error` payload, the flag false, the
head URL as source, and the tail as the new queue — the exception never
escapes the node. -/
theorem scraper_contains_errors (s : OverallState) (api_key msg : String)
    (u : String) (rest : List String)
    (hq : s.urls_to_scrape = u :: rest) (ha : api_key ≠ "") :
    scraper s api_key (.raised msg) =
      { extracted_info := some (some [("error", msg)])
        extracted_from_url := some (some u)
        is_information_found := some false
        urls_to_scrape := some rest } := by
  have hk : api_key.isEmpty = false := by
    rcases he : api_key.isEmpty with _ | _
    · rfl
    · exact absurd ((String.isEmpty_iff api_key).mp he) ha
  simp [scraper, hq, hk]

/-- Concrete instantiation of error containment. -/
theorem scraper_contains_errors_witness :
    scraper ⟨["https://a.example"], 0, 1, ["https://a.example"], none, none,
        false, "kw"⟩ "sk-test" (.raised "boom") =
      { extracted_info := some (some [("error", "boom")])
        extracted_from_url := some (some "https://a.example")
        is_information_found := some false
        urls_to_scrape := some [] } :=
  scraper_contains_errors _ _ _ _ _ rfl (by decide)

/-- Claim C10: with a non-empty queue and an empty API key, the scraper
returns `extracted_info = None` yet `extracted_from_url` set to the head
URL, the flag false, and no `urls_to_scrape` key at all, so the merge
leaves the work queue unchanged. -/
theorem scraper_missing_key (s : OverallState) (out : ExtractorOutcome)
    (u : String) (rest : List String) (hq : s.urls_to_scrape = u :: rest) :
    scraper s "" out =
      { extracted_info := some none
        extracted_from_url := some (some u)
        is_information_found := some false
        urls_to_scrape := none }
  ∧ (applyUpdate s (scraper s "" out)).urls_to_scrape = s.urls_to_scrape := by
  have h1 : scraper s "" out =
      { extracted_info := some none
        extracted_from_url := some (some u)
        is_information_found := some false
        urls_to_scrape := none } := by
    simp [scraper, hq, string_empty_isEmpty]
  exact ⟨h1, by rw [h1]; simp [applyUpdate]⟩

/-- Concrete instantiation of the missing-API-key behavior. -/
theorem scraper_missing_key_witness :
    (applyUpdate
        ⟨["https://a.example"], 0, 1, ["https://a.example"], none, none,
          false, "kw"⟩
        (scraper
          ⟨["https://a.example"], 0, 1, ["https://a.example"], none, none,
            false, "kw"⟩ "" (.raised "unused"))).urls_to_scrape =
      ["https://a.example"] :=
  (scraper_missing_key _ _ _ _ rfl).2

/-- Counterexample to claim C5 as stated: for the one-entry record mapping
key `alpha` to value `beta`, with keyword `alpha`, the lower-cased
stringification of the record contains the keyword (it appears as a key)
and neither banned phrase, so the claim demands the flag true — but the
source tests `str(result.values()).lower()`, where `alpha` does not occur,
and sets the flag false. -/
theorem scraper_relevance_counterexample :
    claimRelevant "alpha" [("alpha", "beta")] = true
  ∧ (scraper
      ⟨["https://x.example"], 0, 1, ["https://x.example"], none, none,
        false, "alpha"⟩
      "sk-test" (.dict [("alpha", "beta")])).is_information_found =
        some false := by
  exact ⟨by decide, by decide⟩

/-- Claim C5 as amended: on a successful dict result, the scraper sets the
flag to true exactly when the lower-cased stringification of the values of
the record contains the lower-cased keyword and contains neither "not
mentioned" nor "not relevant". -/
theorem scraper_relevance_values (s : OverallState) (api_key : String)
    (d : List (String × String)) (u : String) (rest : List String)
    (hq : s.urls_to_scrape = u :: rest) (ha : api_key ≠ "") :
    (scraper s api_key (.dict d)).is_information_found =
      some (valuesRelevant s.keyword d) := by
  have hk : api_key.isEmpty = false := by
    rcases he : api_key.isEmpty with _ | _
    · rfl
    · exact absurd ((String.isEmpty_iff api_key).mp he) ha
  rcases hv : valuesRelevant s.keyword d with _ | _ <;>
    · rw [valuesRelevant] at hv
      simp only [scraper, hq, hk, Bool.false_eq_true, if_false]
      simp [hv]

/-- Concrete instantiation of the amended relevance check: the keyword
occurs among the values of the record, so the flag is true. -/
theorem scraper_relevance_values_witness :
    (scraper
      ⟨["https://x.example"], 0, 1, ["https://x.example"], none, none,
        false, "alpha"⟩
      "sk-test" (.dict [("k", "all about alpha")])).is_information_found =
        some true := by
  have h := scraper_relevance_values
    ⟨["https://x.example"], 0, 1, ["https://x.example"], none, none,
      false, "alpha"⟩
    "sk-test" [("k", "all about alpha")] "https://x.example" [] rfl
    (by decide)
  rw [h]
  decide

/-- Claim C1 refutation: in a run where the extractor never matches the
keyword (so every scraper task reports `is_information_found = false`, with
the API key configured and one URL), the executor never reaches the END
marker: after the single URL is consumed, `current_url_index` — which no
node ever increments — stays 0 below `total_urls = 1`, so
`should_continue_scraping` keeps answering `continue_scraping` and the run
cycles between `scrape_manager` and `evaluate` forever. -/
theorem exhaust_run_never_ends (n : Nat) :
    (exhaustRun n).state.is_information_found = false
  ∧ ((exhaustRun n).node = GNode.scrapeManager
      ∨ (exhaustRun n).node = GNode.scraperNode
      ∨ (exhaustRun n).node = GNode.evaluateNode) := by
  have closed : ∀ e ∈ exhaustCycle,
      step "sk-test" exhaustExt e ∈ exhaustCycle := by decide
  have mem : ∀ m : Nat, exhaustRun m ∈ exhaustCycle := by
    intro m
    induction m with
    | zero => decide
    | succ m ih => exact closed _ ih
  have safe : ∀ e ∈ exhaustCycle,
      e.state.is_information_found = false
    ∧ (e.node = GNode.scrapeManager ∨ e.node = GNode.scraperNode
        ∨ e.node = GNode.evaluateNode) := by decide
  exact safe _ (mem n)
